import Mathlib

/-!
Verification development for the Tsinda payment-integration backend.

The JavaScript sources are shallowly embedded as pure Lean functions:
  - Mongoose documents become Lean structures; `Date` values become `Nat`
    millisecond timestamps; nullable / possibly-undefined fields become
    `Option`; JavaScript string truthiness (empty string is falsy) is made
    explicit.
  - Asynchronous provider calls become explicit arguments: the provider
    response (or the thrown error, via `Except`) is passed in, and every
    nondeterministic choice (generated UUID, current time) is a parameter.
  - Database stores become `List` values threaded through the functions;
    a mongoose `save()` is the point where the in-memory document becomes
    the new list entry.  In-memory mutations that are never followed by a
    `save()` are not persisted and therefore do not appear in the output
    store.
-/

namespace Tsinda

/-- JavaScript truthiness of a possibly-absent string: `undefined`, `null`
and the empty string are falsy. -/
def jsTruthyStr : Option String → Bool
  | none => false
  | some s => s != ""

/-- JavaScript `x || d` for a possibly-absent number (`undefined`, `null`
and `0` are falsy and select the default). -/
def jsOrNat : Option Nat → Nat → Nat
  | some n, d => if n == 0 then d else n
  | none, d => d

/-- JavaScript `x || d` for a possibly-absent string. -/
def jsOrStr : Option String → String → String
  | some s, d => if s == "" then d else s
  | none, d => d

/-! ## Usage statistics (shared shape of `usageStats` in MTNUser.js and
AirtelUser.js) -/

structure UsageStats where
  totalTransactions : Nat
  successfulTransactions : Nat
  failedTransactions : Nat
  lastUsedAt : Option Nat
  deriving Repr, DecidableEq

/-- Embedding of `incrementUsage(success)` from src/models/MTNUser.js lines
130-139 and the identical method in src/models/AirtelUser.js lines 113-122. -/
def UsageStats.incrementUsage (s : UsageStats) (success : Bool) (now : Nat) : UsageStats :=
  let s1 := { s with totalTransactions := s.totalTransactions + 1 }
  let s2 :=
    if success then { s1 with successfulTransactions := s1.successfulTransactions + 1 }
    else { s1 with failedTransactions := s1.failedTransactions + 1 }
  { s2 with lastUsedAt := some now }

/-! ## Credential records -/

/-- MTN credential record (src/models/MTNUser.js).  Fields not referenced by
any claim (providerCallbackHost, subscriptionKeys, config, metadata) are
omitted. -/
structure MTNUser where
  xReferenceId : String
  apiKey : String
  collectionToken : Option String
  disbursementToken : Option String
  collectionTokenExpiresAt : Option Nat
  disbursementTokenExpiresAt : Option Nat
  isActive : Bool
  usageStats : UsageStats
  deriving Repr, DecidableEq

/-- Airtel credential record (src/models/AirtelUser.js).  The schema declares
`accessToken` and `tokenExpiresAt` required, but the virtual re-checks their
presence, so they are kept optional here. -/
structure AirtelUser where
  clientId : String
  accessToken : Option String
  tokenExpiresAt : Option Nat
  tokenType : String
  scope : Option String
  isActive : Bool
  usageStats : UsageStats
  deriving Repr, DecidableEq

/-- Virtual `collectionTokenValid` (src/models/MTNUser.js lines 105-109):
`this.collectionToken && this.collectionTokenExpiresAt &&
this.collectionTokenExpiresAt > new Date()`. -/
def MTNUser.collectionTokenValid (u : MTNUser) (now : Nat) : Bool :=
  match u.collectionToken, u.collectionTokenExpiresAt with
  | some tok, some exp => tok != "" && decide (exp > now)
  | _, _ => false

/-- Virtual `disbursementTokenValid` (src/models/MTNUser.js lines 111-115). -/
def MTNUser.disbursementTokenValid (u : MTNUser) (now : Nat) : Bool :=
  match u.disbursementToken, u.disbursementTokenExpiresAt with
  | some tok, some exp => tok != "" && decide (exp > now)
  | _, _ => false

/-- Virtual `tokenValid` (src/models/AirtelUser.js lines 96-100). -/
def AirtelUser.tokenValid (a : AirtelUser) (now : Nat) : Bool :=
  match a.accessToken, a.tokenExpiresAt with
  | some tok, some exp => tok != "" && decide (exp > now)
  | _, _ => false

/-- `updateCollectionToken(token, expiresIn)` (src/models/MTNUser.js lines
118-122): stores the token and sets the expiry to now + expiresIn seconds. -/
def MTNUser.updateCollectionToken (u : MTNUser) (token : String) (expiresIn : Nat)
    (now : Nat) : MTNUser :=
  { u with collectionToken := some token,
           collectionTokenExpiresAt := some (now + expiresIn * 1000) }

/-- `updateDisbursementToken(token, expiresIn)` (src/models/MTNUser.js lines
124-128). -/
def MTNUser.updateDisbursementToken (u : MTNUser) (token : String) (expiresIn : Nat)
    (now : Nat) : MTNUser :=
  { u with disbursementToken := some token,
           disbursementTokenExpiresAt := some (now + expiresIn * 1000) }

/-- `updateToken(token, expiresIn = 3600, tokenType = Bearer, scope = null)`
(src/models/AirtelUser.js lines 103-111).  The defaults fire when the caller
passes `undefined` (here `none`); the scope is only overwritten when truthy. -/
def AirtelUser.updateToken (a : AirtelUser) (token : String) (expiresIn : Option Nat)
    (tokenType : Option String) (scope : Option String) (now : Nat) : AirtelUser :=
  { a with accessToken := some token,
           tokenExpiresAt := some (now + expiresIn.getD 3600 * 1000),
           tokenType := tokenType.getD "Bearer",
           scope := match scope with
             | some s => if s != "" then some s else a.scope
             | none => a.scope }

/-- `incrementUsage` lifted to the MTN record (src/models/MTNUser.js). -/
def MTNUser.incrementUsage (u : MTNUser) (success : Bool) (now : Nat) : MTNUser :=
  { u with usageStats := u.usageStats.incrementUsage success now }

/-- `incrementUsage` lifted to the Airtel record (src/models/AirtelUser.js). -/
def AirtelUser.incrementUsage (a : AirtelUser) (success : Bool) (now : Nat) : AirtelUser :=
  { a with usageStats := a.usageStats.incrementUsage success now }

/-! ## Token endpoint responses and the three getValidToken paths (C1) -/

/-- Token endpoint response body: `access_token`, optional `expires_in`
(seconds), optional `token_type` and `scope`. -/
structure TokenResponse where
  access_token : String
  expires_in : Option Nat
  token_type : Option String
  scope : Option String
  deriving Repr, DecidableEq

/-- Cache condition of `MTNCollectionService.getValidToken`
(src/services/MTNCollectionService.js): `mtnUser.collectionToken &&
mtnUser.collectionTokenExpiresAt && new Date(expiresAt.getTime() - 30000) >
now`.  Truncated `Nat` subtraction agrees with the JavaScript signed
comparison for nonnegative `now`. -/
def MTNCollectionService.cachedCollectionTokenUsable (u : MTNUser) (now : Nat) : Bool :=
  match u.collectionToken, u.collectionTokenExpiresAt with
  | some tok, some exp => tok != "" && decide (exp - 30000 > now)
  | _, _ => false

/-- `MTNCollectionService.getValidToken()`: return the cached collection
token when it is still valid with a 30-second buffer, otherwise fetch a new
token (`fetchResp`), store it with expiry now + (`expires_in` or 180)
seconds via `updateCollectionToken`, and return it. -/
def MTNCollectionService.getValidToken (u : MTNUser) (now : Nat)
    (fetchResp : TokenResponse) : String × MTNUser :=
  if MTNCollectionService.cachedCollectionTokenUsable u now then
    (u.collectionToken.getD "", u)
  else
    let expiresIn := jsOrNat fetchResp.expires_in 180
    (fetchResp.access_token, u.updateCollectionToken fetchResp.access_token expiresIn now)

/-- Refresh condition for the collection token in
`MTNAuthService.refreshTokensIfNeeded` (src/services/MTNAuthService.js):
`!mtnUser.collectionTokenValid || (mtnUser.collectionTokenExpiresAt &&
new Date(expiresAt.getTime() - 5*60*1000) <= now)`. -/
def MTNAuthService.collectionNeedsRefresh (u : MTNUser) (now : Nat) : Bool :=
  !(u.collectionTokenValid now) ||
    (match u.collectionTokenExpiresAt with
     | some exp => decide (exp - 300000 ≤ now)
     | none => false)

/-- Disbursement-token refresh condition in
`MTNAuthService.refreshTokensIfNeeded`. -/
def MTNAuthService.disbursementNeedsRefresh (u : MTNUser) (now : Nat) : Bool :=
  !(u.disbursementTokenValid now) ||
    (match u.disbursementTokenExpiresAt with
     | some exp => decide (exp - 300000 ≤ now)
     | none => false)

/-- Collection half of `MTNAuthService.refreshTokensIfNeeded`: when the
refresh condition holds, `createCollectionToken` is called and its result is
stored via `updateCollectionToken(access_token, expires_in)` (the method
default 3600 fires when `expires_in` is absent). -/
def MTNAuthService.refreshCollectionIfNeeded (u : MTNUser) (now : Nat)
    (fetchResp : TokenResponse) : MTNUser :=
  if MTNAuthService.collectionNeedsRefresh u now then
    u.updateCollectionToken fetchResp.access_token (fetchResp.expires_in.getD 3600) now
  else u

/-- Disbursement half of `MTNAuthService.refreshTokensIfNeeded`. -/
def MTNAuthService.refreshDisbursementIfNeeded (u : MTNUser) (now : Nat)
    (fetchResp : TokenResponse) : MTNUser :=
  if MTNAuthService.disbursementNeedsRefresh u now then
    u.updateDisbursementToken fetchResp.access_token (fetchResp.expires_in.getD 3600) now
  else u

/-- `MTNAuthService.refreshTokensIfNeeded`: the collection check runs first,
then the disbursement check. -/
def MTNAuthService.refreshTokensIfNeeded (u : MTNUser) (now : Nat)
    (collResp disbResp : TokenResponse) : MTNUser :=
  MTNAuthService.refreshDisbursementIfNeeded
    (MTNAuthService.refreshCollectionIfNeeded u now collResp) now disbResp

/-- `MTNAuthService.getCollectionToken()`: refresh if needed, then return
the stored collection token. -/
def MTNAuthService.getCollectionToken (u : MTNUser) (now : Nat)
    (collResp disbResp : TokenResponse) : Option String × MTNUser :=
  let u2 := MTNAuthService.refreshTokensIfNeeded u now collResp disbResp
  (u2.collectionToken, u2)

/-- Refresh condition in `AirtelAuthService.refreshTokensIfNeeded`
(src/services/AirtelAuthService.js lines 97-118): `!airtelUser.tokenValid ||
(airtelUser.tokenExpiresAt && new Date(expiresAt.getTime() - 5*60*1000) <=
now)`. -/
def AirtelAuthService.needsRefresh (a : AirtelUser) (now : Nat) : Bool :=
  !(a.tokenValid now) ||
    (match a.tokenExpiresAt with
     | some exp => decide (exp - 300000 ≤ now)
     | none => false)

/-- `AirtelAuthService.refreshTokensIfNeeded`: when the refresh condition
holds, `getAccessToken()` is called and the response is stored via
`updateToken(access_token, expires_in, token_type, scope)`. -/
def AirtelAuthService.refreshTokensIfNeeded (a : AirtelUser) (now : Nat)
    (fetchResp : TokenResponse) : AirtelUser :=
  if AirtelAuthService.needsRefresh a now then
    a.updateToken fetchResp.access_token fetchResp.expires_in fetchResp.token_type
      fetchResp.scope now
  else a

/-- `AirtelAuthService.getValidAccessToken()`: refresh if needed, then
return the stored access token. -/
def AirtelAuthService.getValidAccessToken (a : AirtelUser) (now : Nat)
    (fetchResp : TokenResponse) : Option String × AirtelUser :=
  let a2 := AirtelAuthService.refreshTokensIfNeeded a now fetchResp
  (a2.accessToken, a2)

/-! ## Base64 and the token-acquisition requests (C5) -/

/-- The standard base64 alphabet used by `Buffer.toString(base64)`. -/
def base64Alphabet : List Char :=
  "ABCDEFGHIJKLMNOPQRSTUVWXYZabcdefghijklmnopqrstuvwxyz0123456789+/".toList

/-- Character of the base64 alphabet at a 6-bit index. -/
def base64CharAt (n : Nat) : Char :=
  base64Alphabet.getD n 'A'

/-- RFC 4648 base64 encoding of a byte list, with padding, as produced by
Node `Buffer.from(s).toString(base64)`. -/
def base64Encode : List Nat → String
  | [] => ""
  | [b1] =>
      String.mk [base64CharAt (b1 / 4), base64CharAt (b1 % 4 * 16), '=', '=']
  | [b1, b2] =>
      String.mk [base64CharAt (b1 / 4), base64CharAt (b1 % 4 * 16 + b2 / 16),
                 base64CharAt (b2 % 16 * 4), '=']
  | b1 :: b2 :: b3 :: rest =>
      String.mk [base64CharAt (b1 / 4), base64CharAt (b1 % 4 * 16 + b2 / 16),
                 base64CharAt (b2 % 16 * 4 + b3 / 64), base64CharAt (b3 % 64)]
        ++ base64Encode rest

/-- Bytes of a credential string as `Buffer.from` produces them; the
credentials involved (UUIDs, hex keys, the colon) are ASCII, where UTF-8
bytes coincide with code points. -/
def strBytes (s : String) : List Nat :=
  s.toList.map Char.toNat

/-- Headers of `MTNAuthService.createCollectionToken(xReferenceId, apiKey)`
(src/services/MTNAuthService.js lines 161-183): Basic auth over
`xReferenceId:apiKey`. -/
def MTNAuthService.createCollectionTokenHeaders (xReferenceId apiKey collectionsKey : String) :
    List (String × String) :=
  [("Authorization", "Basic " ++ base64Encode (strBytes (xReferenceId ++ ":" ++ apiKey))),
   ("Content-Type", "application/json"),
   ("Ocp-Apim-Subscription-Key", collectionsKey)]

/-- Headers of `MTNAuthService.createDisbursementToken(xReferenceId, apiKey)`
(src/services/MTNAuthService.js lines 188-210). -/
def MTNAuthService.createDisbursementTokenHeaders (xReferenceId apiKey disbursementsKey : String) :
    List (String × String) :=
  [("Authorization", "Basic " ++ base64Encode (strBytes (xReferenceId ++ ":" ++ apiKey))),
   ("Content-Type", "application/json"),
   ("Ocp-Apim-Subscription-Key", disbursementsKey)]

/-- Headers of `MTNCollectionService.getToken(xReferenceId, apiKey)`
(src/services/MTNCollectionService.js lines 12-39): the same Basic-auth
exchange. -/
def MTNCollectionService.getTokenHeaders (xReferenceId apiKey subscriptionKey : String) :
    List (String × String) :=
  [("Authorization", "Basic " ++ base64Encode (strBytes (xReferenceId ++ ":" ++ apiKey))),
   ("Content-Type", "application/json"),
   ("Ocp-Apim-Subscription-Key", subscriptionKey)]

/-- JSON body of the Airtel OAuth2 token request. -/
structure AirtelTokenRequestBody where
  client_id : String
  client_secret : String
  grant_type : String
  deriving Repr, DecidableEq

/-- Request body built by `AirtelAuthService.getAccessToken()`
(src/services/AirtelAuthService.js lines 13-54): a client-credentials grant
carrying the configured id and secret. -/
def AirtelAuthService.tokenRequestBody (clientId clientSecret : String) :
    AirtelTokenRequestBody :=
  { client_id := clientId, client_secret := clientSecret,
    grant_type := "client_credentials" }

/-! ## MTN request-to-pay flow (C6) -/

/-- Headers of `MTNCollectionService.requestToPay(referenceId, ...)`
(src/services/MTNCollectionService.js lines 70-159): the reference id the
caller passes is sent verbatim in the `X-Reference-Id` header. -/
def MTNCollectionService.requestToPayHeaders
    (token referenceId targetEnvironment callbackUrl subscriptionKey : String) :
    List (String × String) :=
  [("Authorization", "Bearer " ++ token),
   ("Content-Type", "application/json"),
   ("X-Reference-Id", referenceId),
   ("X-Target-Environment", targetEnvironment),
   ("X-Callback-Url", callbackUrl),
   ("Ocp-Apim-Subscription-Key", subscriptionKey)]

/-- Outcome of `MTNCollectionService.requestToPay`: on HTTP 202 it returns
`{ status, referenceId }` echoing its own argument; every other status is
thrown as an error. -/
def MTNCollectionService.requestToPayOutcome (referenceId : String) (httpStatus : Nat) :
    Except String (Nat × String) :=
  if httpStatus == 202 then Except.ok (httpStatus, referenceId)
  else Except.error ("Failed to request payment: " ++ toString httpStatus)

/-- Result value of `MTNPaymentService.requestPayment`
(src/services/MTNPaymentService.js lines 77-85). -/
structure MTNPaymentServiceResult where
  referenceId : String
  status : Nat
  userId : String
  phoneNumber : String
  amount : Nat
  currency : String
  deriving Repr, DecidableEq

/-- Observable behaviour of one `MTNPaymentService.requestPayment` run: the
provider request that was issued and the value returned (or error thrown). -/
structure MTNRequestPaymentFlow where
  requestHeaders : List (String × String)
  result : Except String MTNPaymentServiceResult
  deriving Repr

/-- `MTNPaymentService.requestPayment(userId, phoneNumber, amount)`
(src/services/MTNPaymentService.js lines 12-90): a fresh UUID (`uuid`, the
value produced by `crypto.randomUUID()`) becomes the reference id, is sent
in the `X-Reference-Id` header of the request-to-pay call, and on acceptance
is returned to the caller as `referenceId`. -/
def MTNPaymentService.requestPayment (uuid userId phoneNumber : String) (amount : Nat)
    (token targetEnvironment callbackUrl subscriptionKey : String) (httpStatus : Nat) :
    MTNRequestPaymentFlow :=
  { requestHeaders := MTNCollectionService.requestToPayHeaders token uuid
      targetEnvironment callbackUrl subscriptionKey,
    result :=
      match MTNCollectionService.requestToPayOutcome uuid httpStatus with
      | Except.ok (st, rid) =>
          Except.ok { referenceId := rid, status := st, userId := userId,
                      phoneNumber := phoneNumber, amount := amount,
                      currency := "RWF" }
      | Except.error e => Except.error ("Failed to request payment: " ++ e) }

/-! ## Retry mechanism and its configuration (C7) -/

/-- Retry configuration block (src/config/paymentConfig.js). -/
structure RetryConfig where
  maxRetries : Nat
  retryDelay : Nat
  timeout : Nat
  deriving Repr, DecidableEq

/-- `config.mtn.retry` (src/config/paymentConfig.js lines 18-22):
`parseInt(env) || default`; an absent or unparsable variable (and the falsy
value 0) selects the default. -/
def config.mtnRetry (envMaxRetries envRetryDelay envTimeout : Option Nat) : RetryConfig :=
  { maxRetries := jsOrNat envMaxRetries 3,
    retryDelay := jsOrNat envRetryDelay 1000,
    timeout := jsOrNat envTimeout 10000 }

/-- `config.airtel.retry` (src/config/paymentConfig.js lines 31-35). -/
def config.airtelRetry (envMaxRetries envRetryDelay envTimeout : Option Nat) : RetryConfig :=
  { maxRetries := jsOrNat envMaxRetries 3,
    retryDelay := jsOrNat envRetryDelay 1000,
    timeout := jsOrNat envTimeout 10000 }

/-- Loop body of `MomoAPIFixedToken.retryAPICall`.  `calls i` is the outcome
of the i-th invocation of `apiCall`; `remaining` counts the attempts still
allowed; `lastErr` is the last stored error (`none` models the undefined
`lastError` thrown when the loop never runs).  The returned triple is the
outcome, the number of the attempt that produced it, and the list of delays
awaited between attempts. -/
def MomoAPIFixedToken.retryGo {α : Type} (calls : Nat → Except String α)
    (retryDelay : Nat) (attempt remaining : Nat) (lastErr : Option String)
    (delays : List Nat) : Except (Option String) α × Nat × List Nat :=
  match remaining with
  | 0 => (Except.error lastErr, attempt - 1, delays)
  | r + 1 =>
    match calls attempt with
    | Except.ok a => (Except.ok a, attempt, delays)
    | Except.error e =>
      if r = 0 then (Except.error (some e), attempt, delays)
      else
        MomoAPIFixedToken.retryGo calls retryDelay (attempt + 1) r (some e)
          (delays ++ [retryDelay])

/-- `MomoAPIFixedToken.retryAPICall(apiCall, maxRetries)`: attempts run from
1 up to `maxRetries`; a success returns immediately; each failure except the
last is followed by one `retryDelay` wait; when every attempt fails the last
error is thrown. -/
def MomoAPIFixedToken.retryAPICall {α : Type} (calls : Nat → Except String α)
    (maxRetries retryDelay : Nat) : Except (Option String) α × Nat × List Nat :=
  MomoAPIFixedToken.retryGo calls retryDelay 1 maxRetries none []

/-! ## Webhook callbacks (C2, C8) -/

/-- Body of an MTN request-to-pay callback as read by
`MTNPaymentController.callback`: every field may be absent, and field
presence is tested with JavaScript truthiness. -/
structure MTNCallbackBody where
  financialTransactionId : Option String
  externalId : Option String
  amount : Option String
  currency : Option String
  status : Option String
  deriving Repr, DecidableEq

/-- Payment record (paymentSchema in src/models/Payment.js).  Only the fields
the callback handler and the claims touch are kept; `metadataFinancialTransactionId`
stands for `metadata.financialTransactionId`. -/
structure Payment where
  xReferenceId : String
  externalId : String
  status : String
  mtnStatus : Option String
  mtnResponse : Option MTNCallbackBody
  completedAt : Option Nat
  failedAt : Option Nat
  metadataFinancialTransactionId : Option String
  createdAt : Nat
  deriving Repr, DecidableEq

/-- Index of the payment `findOne({ externalId }).sort({ createdAt: -1 })`
selects: the first record carrying the external id with the greatest
`createdAt` among the matches. -/
def mostRecentIdxByExternalId (payments : List Payment) (eid : String) : Option Nat :=
  payments.enum.foldl
    (fun acc ip =>
      if ip.2.externalId == eid then
        match acc with
        | none => some (ip.1, ip.2.createdAt)
        | some jt => if ip.2.createdAt > jt.2 then some (ip.1, ip.2.createdAt) else some jt
      else acc)
    none
  |>.map Prod.fst

/-- Conditional `metadata.financialTransactionId` assignment shared by the
three persisting branches of `MTNPaymentController.callback`
(src/controllers/MTNPaymentController.js lines 60-106): the field is set
only when the callback carries a truthy financialTransactionId. -/
def withFinancialTransactionId (cb : MTNCallbackBody) (q : Payment) : Payment :=
  if jsTruthyStr cb.financialTransactionId then
    { q with metadataFinancialTransactionId := cb.financialTransactionId }
  else q

/-- Status-directed update of the selected payment in
`MTNPaymentController.callback` (src/controllers/MTNPaymentController.js
lines 60-106).  Only the three branches that reach `payment.save()` persist
anything; any other callback status leaves the stored record untouched (the
in-memory `mtnResponse` assignment is never saved in that case). -/
def applyMTNCallbackToPayment (p : Payment) (cb : MTNCallbackBody) (now : Nat) : Payment :=
  match cb.status with
  | some s =>
    if s == "PENDING" then
      withFinancialTransactionId cb
        { p with mtnResponse := some cb, status := "PENDING",
                 mtnStatus := some "PENDING" }
    else if s == "SUCCESSFUL" then
      withFinancialTransactionId cb
        { p with mtnResponse := some cb, status := "SUCCESSFUL",
                 mtnStatus := some "SUCCESSFUL", completedAt := some now,
                 failedAt := none }
    else if s == "FAILED" then
      withFinancialTransactionId cb
        { p with mtnResponse := some cb, status := "FAILED",
                 mtnStatus := some "FAILED", failedAt := some now,
                 completedAt := none }
    else p
  | none => p

/-- Store transition of the MTN callback handler: update the most recently
created payment matching the callback external id, if any. -/
def MTNPaymentController.applyCallback (store : List Payment) (cb : MTNCallbackBody)
    (now : Nat) : List Payment :=
  match mostRecentIdxByExternalId store (cb.externalId.getD "") with
  | none => store
  | some i =>
    match store[i]? with
    | none => store
    | some p => store.set i (applyMTNCallbackToPayment p cb now)

/-- `MTNPaymentController.callback(req, res)`
(src/controllers/MTNPaymentController.js lines 11-144): 400 when the body or
a required field (externalId, status, amount, currency) is missing; 200
otherwise, including when persisting throws (`processingFails`), in which
case the store is left unchanged and the handler still answers 200. -/
def MTNPaymentController.callback (store : List Payment) (body : Option MTNCallbackBody)
    (now : Nat) (processingFails : Bool) : Nat × List Payment :=
  match body with
  | none => (400, store)
  | some cb =>
    if !(jsTruthyStr cb.externalId && jsTruthyStr cb.status &&
         jsTruthyStr cb.amount && jsTruthyStr cb.currency) then
      (400, store)
    else if processingFails then (200, store)
    else (200, MTNPaymentController.applyCallback store cb now)

/-- Transaction object of an Airtel callback body. -/
structure AirtelCallbackTransaction where
  id : Option String
  status_code : Option String
  airtel_money_id : Option String
  message : Option String
  deriving Repr, DecidableEq

/-- Airtel callback body: `{ transaction: {...} }`. -/
structure AirtelCallbackBody where
  transaction : Option AirtelCallbackTransaction
  deriving Repr, DecidableEq

/-! ## Subscription payments (C3, C9) and the Airtel callback store -/

/-- Airtel USSD-push response transaction, as read by
`SubscriptionService.createSubscriptionPayment`. -/
structure AirtelRespTransaction where
  status : Option String
  airtel_money_id : Option String
  deriving Repr, DecidableEq

/-- `paymentResponse.data` of the Airtel USSD-push response. -/
structure AirtelRespData where
  transaction : Option AirtelRespTransaction
  deriving Repr, DecidableEq

/-- Airtel USSD-push payment response. -/
structure AirtelPayResponse where
  data : Option AirtelRespData
  deriving Repr, DecidableEq

/-- MTN payment response as returned by `PaymentService.requestToPay`
(a PaymentResponseDTO with a status string and the reference id). -/
structure MTNPayResponse where
  status : Option String
  xReferenceId : Option String
  deriving Repr, DecidableEq

/-- Subscription record (subscriptionSchema in src/models/Subscription.js).
The calendar arithmetic of `calculateEndDate` (month addition on dates) is
outside every claim and the `endDate` field is omitted. -/
structure Subscription where
  userId : String
  amount : Nat
  currency : String
  numberOfMonths : Nat
  paymentChannel : String
  msisdn : String
  transactionId : String
  status : String
  airtelStatus : Option String
  mtnStatus : Option String
  airtelMoneyId : Option String
  mtnReferenceId : Option String
  airtelResponse : Option AirtelPayResponse
  mtnResponse : Option MTNPayResponse
  airtelError : Option String
  mtnError : Option String
  startDate : Option Nat
  processedAt : Option Nat
  completedAt : Option Nat
  createdAt : Nat
  deriving Repr, DecidableEq

/-- The `status` enum of paymentSchema and subscriptionSchema. -/
def statusEnum : List String :=
  ["PENDING", "SUCCESSFUL", "FAILED", "CANCELLED"]

/-- `AirtelPaymentController.callback(req, res)`
(src/controllers/AirtelPaymentController.js lines 483-587): 400 when the
body, its transaction, or a required transaction field is missing; 200
otherwise (also when persisting the callback record throws).  The handler
only stores an AirtelCallback document; the update of a local transaction
record is a commented-out TODO, so the transaction store passes through
unchanged. -/
def AirtelPaymentController.callback (store : List Subscription)
    (body : Option AirtelCallbackBody) (processingFails : Bool) :
    Nat × List Subscription :=
  match body with
  | none => (400, store)
  | some b =>
    match b.transaction with
    | none => (400, store)
    | some tr =>
      if !(jsTruthyStr tr.id && jsTruthyStr tr.status_code &&
           jsTruthyStr tr.airtel_money_id) then
        (400, store)
      else if processingFails then (200, store)
      else (200, store)

/-- JavaScript `toUpperCase()` as a list map (both Strings here are backed
by character lists). -/
def jsToUpper (s : String) : String :=
  String.mk (s.toList.map Char.toUpper)

/-- Splits a character list at dashes, keeping empty groups, as the dashes
of the uuid regex do. -/
def splitDash : List Char → List (List Char)
  | [] => [[]]
  | c :: cs =>
    if c == '-' then [] :: splitDash cs
    else
      match splitDash cs with
      | g :: gs => (c :: g) :: gs
      | [] => [[c]]

/-- One hex digit of the case-insensitive uuid regex. -/
def isHexDigit (c : Char) : Bool :=
  c.isDigit || ('a' ≤ c && c ≤ 'f') || ('A' ≤ c && c ≤ 'F')

/-- The uuid test of `SubscriptionService.createSubscriptionPayment`:
`/^[0-9a-f]{8}-[0-9a-f]{4}-[0-9a-f]{4}-[0-9a-f]{4}-[0-9a-f]{12}$/i`. -/
def isUuid (s : String) : Bool :=
  match splitDash s.toList with
  | [a, b, c, d, e] =>
    a.length == 8 && b.length == 4 && c.length == 4 && d.length == 4 &&
    e.length == 12 && (a ++ b ++ c ++ d ++ e).all isHexDigit
  | _ => false

/-- Input of `SubscriptionService.createSubscriptionPayment`.  `amount` and
`numberOfMonths` are numbers in the source; value 0 is falsy there and
triggers the missing-fields error, matching `Nat` zero here. -/
structure SubscriptionData where
  userId : String
  amount : Nat
  numberOfMonths : Nat
  msisdn : String
  paymentChannel : String
  country : Option String
  currency : Option String
  deriving Repr, DecidableEq

/-- Validation prefix of `SubscriptionService.createSubscriptionPayment`
(src/services/SubscriptionService.js lines 30-55), in source order; returns
the message of the first error thrown, if any. -/
def SubscriptionService.validateSubscriptionData (d : SubscriptionData) : Option String :=
  if d.userId == "" || d.amount == 0 || d.numberOfMonths == 0 || d.msisdn == "" ||
     d.paymentChannel == "" then
    some "Missing required fields: userId, amount, numberOfMonths, msisdn, paymentChannel"
  else if !(["MTN", "AIRTEL"].contains (jsToUpper d.paymentChannel)) then
    some "Invalid payment channel. Must be \"MTN\" or \"AIRTEL\""
  else if d.amount == 0 then
    some "Amount must be a positive number"
  else if d.numberOfMonths < 1 then
    some "Number of months must be at least 1"
  else if !(isUuid d.userId) then
    some "Invalid userId format. Must be a valid UUID"
  else none

/-- Airtel response handling inside `createSubscriptionPayment`
(src/services/SubscriptionService.js lines 110-134): record the transaction
status and airtel_money_id when present, then map TS to SUCCESSFUL (with
startDate and processedAt), TF to FAILED (with completedAt), and anything
else (TIP, TA, ...) back to PENDING. -/
def applyAirtelOutcome (sub : Subscription) (resp : AirtelPayResponse) (now : Nat) :
    Subscription :=
  match resp.data with
  | none => sub
  | some dta =>
    match dta.transaction with
    | none => sub
    | some tr =>
      if tr.status == some "TS" then
        { sub with airtelStatus := tr.status,
                   airtelMoneyId :=
                     (if jsTruthyStr tr.airtel_money_id then tr.airtel_money_id
                      else sub.airtelMoneyId),
                   status := "SUCCESSFUL", startDate := some now,
                   processedAt := some now }
      else if tr.status == some "TF" then
        { sub with airtelStatus := tr.status,
                   airtelMoneyId :=
                     (if jsTruthyStr tr.airtel_money_id then tr.airtel_money_id
                      else sub.airtelMoneyId),
                   status := "FAILED", completedAt := some now }
      else
        { sub with airtelStatus := tr.status,
                   airtelMoneyId :=
                     (if jsTruthyStr tr.airtel_money_id then tr.airtel_money_id
                      else sub.airtelMoneyId),
                   status := "PENDING" }

/-- MTN response handling inside `createSubscriptionPayment`
(src/services/SubscriptionService.js lines 152-175). -/
def applyMtnOutcome (sub : Subscription) (resp : MTNPayResponse) (now : Nat) :
    Subscription :=
  match resp.status with
  | none =>
    { sub with mtnReferenceId :=
        if jsTruthyStr resp.xReferenceId then resp.xReferenceId
        else sub.mtnReferenceId }
  | some s =>
    if s == "" then
      { sub with mtnReferenceId :=
          if jsTruthyStr resp.xReferenceId then resp.xReferenceId
          else sub.mtnReferenceId }
    else if s == "SUCCESSFUL" then
      { sub with
          mtnReferenceId :=
            (if jsTruthyStr resp.xReferenceId then resp.xReferenceId
             else sub.mtnReferenceId),
          mtnStatus := some s, status := "SUCCESSFUL", startDate := some now,
          processedAt := some now }
    else if s == "FAILED" then
      { sub with
          mtnReferenceId :=
            (if jsTruthyStr resp.xReferenceId then resp.xReferenceId
             else sub.mtnReferenceId),
          mtnStatus := some s, status := "FAILED", completedAt := some now }
    else
      { sub with
          mtnReferenceId :=
            (if jsTruthyStr resp.xReferenceId then resp.xReferenceId
             else sub.mtnReferenceId),
          mtnStatus := some s, status := "PENDING" }

/-- Observable outcome of one `createSubscriptionPayment` run: the value
returned to the caller (or the thrown error) and the subscription record as
last persisted, if one was saved. -/
structure SubCreateResult where
  response : Except String Subscription
  saved : Option Subscription
  deriving Repr

/-- `SubscriptionService.createSubscriptionPayment(subscriptionData)`
(src/services/SubscriptionService.js lines 28-197).  `uuid` is the value of
`crypto.randomUUID()`; `airtelCall` and `mtnCall` are the outcomes of the
provider payment call on the respective channel (`Except.error` models a
throw).  The record is first saved with status PENDING; the inner catch
marks it FAILED, stores the error message in the channel error field, sets
`completedAt` and rethrows; the outer catch wraps every thrown message in
`Subscription payment failed: `. -/
def SubscriptionService.createSubscriptionPayment (d : SubscriptionData) (uuid : String)
    (now : Nat) (airtelCall : Except String AirtelPayResponse)
    (mtnCall : Except String MTNPayResponse) : SubCreateResult :=
  match SubscriptionService.validateSubscriptionData d with
  | some msg => { response := Except.error ("Subscription payment failed: " ++ msg),
                  saved := none }
  | none =>
    let channel := jsToUpper d.paymentChannel
    let currency := jsOrStr d.currency "RWF"
    let transactionId := "SUB-" ++ uuid
    let sub0 : Subscription := {
      userId := d.userId, amount := d.amount, currency := currency,
      numberOfMonths := d.numberOfMonths, paymentChannel := channel,
      msisdn := d.msisdn, transactionId := transactionId, status := "PENDING",
      airtelStatus := none, mtnStatus := none, airtelMoneyId := none,
      mtnReferenceId := none, airtelResponse := none, mtnResponse := none,
      airtelError := none, mtnError := none, startDate := none,
      processedAt := none, completedAt := none, createdAt := now }
    if channel == "AIRTEL" then
      match airtelCall with
      | Except.ok resp =>
        let sub2 := applyAirtelOutcome { sub0 with airtelResponse := some resp } resp now
        { response := Except.ok sub2, saved := some sub2 }
      | Except.error e =>
        let subF := { sub0 with status := "FAILED", airtelError := some e,
                                completedAt := some now }
        { response := Except.error ("Subscription payment failed: " ++ e),
          saved := some subF }
    else
      match mtnCall with
      | Except.ok resp =>
        let sub2 := applyMtnOutcome { sub0 with mtnResponse := some resp } resp now
        { response := Except.ok sub2, saved := some sub2 }
      | Except.error e =>
        let subF := { sub0 with status := "FAILED", mtnError := some e,
                                completedAt := some now }
        { response := Except.error ("Subscription payment failed: " ++ e),
          saved := some subF }

/-! ## Sample values used to instantiate the theorems at concrete inputs -/

/-- Concrete MTN credential record holding a cached token pair that expires
at timestamp 1000000. -/
def sampleMTNUser : MTNUser :=
  { xReferenceId := "caa0eb38-33e6-4bf0-acf1-04f18020d379", apiKey := "k",
    collectionToken := some "ctok", disbursementToken := some "dtok",
    collectionTokenExpiresAt := some 1000000, disbursementTokenExpiresAt := some 1000000,
    isActive := true, usageStats := ⟨0, 0, 0, none⟩ }

/-- Concrete Airtel credential record with a cached token. -/
def sampleAirtelUser : AirtelUser :=
  { clientId := "cid", accessToken := some "atok", tokenExpiresAt := some 1000000,
    tokenType := "Bearer", scope := none, isActive := true, usageStats := ⟨0, 0, 0, none⟩ }

/-- Concrete token-endpoint response. -/
def sampleTokenResponse : TokenResponse :=
  { access_token := "fresh", expires_in := some 180, token_type := some "access_token",
    scope := none }

/-- Concrete pending payment record. -/
def samplePayment : Payment :=
  { xReferenceId := "r1", externalId := "user-1", status := "PENDING",
    mtnStatus := some "PENDING", mtnResponse := none, completedAt := none,
    failedAt := none, metadataFinancialTransactionId := none, createdAt := 10 }

/-- Concrete MTN callback body reporting SUCCESSFUL for `samplePayment`. -/
def sampleMTNCallback : MTNCallbackBody :=
  { financialTransactionId := some "FT1", externalId := some "user-1",
    amount := some "100", currency := some "RWF", status := some "SUCCESSFUL" }

/-- Concrete pending Airtel subscription record for transaction SUB-1. -/
def sampleAirtelSub : Subscription :=
  { userId := "caa0eb38-33e6-4bf0-acf1-04f18020d379", amount := 1000, currency := "RWF",
    numberOfMonths := 3, paymentChannel := "AIRTEL", msisdn := "250788123456",
    transactionId := "SUB-1", status := "PENDING", airtelStatus := some "TIP",
    mtnStatus := none, airtelMoneyId := none, mtnReferenceId := none,
    airtelResponse := none, mtnResponse := none, airtelError := none, mtnError := none,
    startDate := none, processedAt := none, completedAt := none, createdAt := 10 }

/-- Concrete valid Airtel callback body reporting TS for transaction SUB-1. -/
def sampleAirtelCallback : AirtelCallbackBody :=
  { transaction := some { id := some "SUB-1", status_code := some "TS",
                          airtel_money_id := some "AM-1", message := none } }

/-- Concrete valid subscription request on the AIRTEL channel. -/
def sampleSubData : SubscriptionData :=
  { userId := "caa0eb38-33e6-4bf0-acf1-04f18020d379", amount := 1000,
    numberOfMonths := 3, msisdn := "250788123456", paymentChannel := "AIRTEL",
    country := none, currency := none }

/-- Concrete valid subscription request on the MTN channel. -/
def sampleSubDataMTN : SubscriptionData :=
  { sampleSubData with paymentChannel := "MTN" }

/-! ## Theorems -/

/-- C4: a stored token is judged valid by exactly one condition — the token
field is present (and nonempty, the only notion of presence the JavaScript
truthiness test can see) and the stored expiry timestamp is strictly later
than the current time; the predicates depend on no other field of the
record, and incrementing the usage counters never evicts a token. -/
theorem C4_token_validity_predicates (u : MTNUser) (a : AirtelUser)
    (now now2 : Nat) (success : Bool) :
    (a.tokenValid now = true ↔
      ∃ tok exp, a.accessToken = some tok ∧ tok ≠ "" ∧
        a.tokenExpiresAt = some exp ∧ exp > now) ∧
    (u.collectionTokenValid now = true ↔
      ∃ tok exp, u.collectionToken = some tok ∧ tok ≠ "" ∧
        u.collectionTokenExpiresAt = some exp ∧ exp > now) ∧
    (u.disbursementTokenValid now = true ↔
      ∃ tok exp, u.disbursementToken = some tok ∧ tok ≠ "" ∧
        u.disbursementTokenExpiresAt = some exp ∧ exp > now) ∧
    (∀ v : AirtelUser, v.accessToken = a.accessToken →
      v.tokenExpiresAt = a.tokenExpiresAt → v.tokenValid now = a.tokenValid now) ∧
    (∀ w : MTNUser, w.collectionToken = u.collectionToken →
      w.collectionTokenExpiresAt = u.collectionTokenExpiresAt →
      w.collectionTokenValid now = u.collectionTokenValid now) ∧
    (∀ w : MTNUser, w.disbursementToken = u.disbursementToken →
      w.disbursementTokenExpiresAt = u.disbursementTokenExpiresAt →
      w.disbursementTokenValid now = u.disbursementTokenValid now) ∧
    ((a.incrementUsage success now2).accessToken = a.accessToken ∧
     (a.incrementUsage success now2).tokenExpiresAt = a.tokenExpiresAt ∧
     (u.incrementUsage success now2).collectionToken = u.collectionToken ∧
     (u.incrementUsage success now2).disbursementToken = u.disbursementToken ∧
     (u.incrementUsage success now2).collectionTokenExpiresAt = u.collectionTokenExpiresAt ∧
     (u.incrementUsage success now2).disbursementTokenExpiresAt = u.disbursementTokenExpiresAt) := by
  refine ⟨?_, ?_, ?_, ?_, ?_, ?_, ?_⟩
  · unfold AirtelUser.tokenValid
    rcases a.accessToken with _ | tok <;> rcases a.tokenExpiresAt with _ | exp <;> simp
  · unfold MTNUser.collectionTokenValid
    rcases u.collectionToken with _ | tok <;>
      rcases u.collectionTokenExpiresAt with _ | exp <;> simp
  · unfold MTNUser.disbursementTokenValid
    rcases u.disbursementToken with _ | tok <;>
      rcases u.disbursementTokenExpiresAt with _ | exp <;> simp
  · intro v h1 h2; unfold AirtelUser.tokenValid; rw [h1, h2]
  · intro w h1 h2; unfold MTNUser.collectionTokenValid; rw [h1, h2]
  · intro w h1 h2; unfold MTNUser.disbursementTokenValid; rw [h1, h2]
  · exact ⟨rfl, rfl, rfl, rfl, rfl, rfl⟩

/-- C4 witness: the predicate evaluated at a concrete cached record. -/
theorem C4_witness : sampleAirtelUser.tokenValid 5 = true :=
  (C4_token_validity_predicates sampleMTNUser sampleAirtelUser 5 0 true).1.mpr
    ⟨"atok", 1000000, rfl, by decide, rfl, by decide⟩

/-- C10: every `incrementUsage` call raises `totalTransactions` by exactly 1
and exactly one of the success and failure counters by exactly 1, so the
equation total = successful + failed is preserved. -/
theorem C10_incrementUsage_counters (s : UsageStats) (success : Bool) (now : Nat) :
    (s.incrementUsage success now).totalTransactions = s.totalTransactions + 1 ∧
    (success = true →
      (s.incrementUsage success now).successfulTransactions =
        s.successfulTransactions + 1 ∧
      (s.incrementUsage success now).failedTransactions = s.failedTransactions) ∧
    (success = false →
      (s.incrementUsage success now).failedTransactions = s.failedTransactions + 1 ∧
      (s.incrementUsage success now).successfulTransactions = s.successfulTransactions) ∧
    (s.totalTransactions = s.successfulTransactions + s.failedTransactions →
      (s.incrementUsage success now).totalTransactions =
        (s.incrementUsage success now).successfulTransactions +
          (s.incrementUsage success now).failedTransactions) := by
  cases success <;> simp [UsageStats.incrementUsage] <;> omega

/-- C10 witness: the counters evaluated at a concrete record. -/
theorem C10_witness :
    (UsageStats.incrementUsage ⟨3, 2, 1, none⟩ true 7).totalTransactions = 4 ∧
    (UsageStats.incrementUsage ⟨3, 2, 1, none⟩ true 7).successfulTransactions = 3 ∧
    (UsageStats.incrementUsage ⟨3, 2, 1, none⟩ true 7).totalTransactions =
      (UsageStats.incrementUsage ⟨3, 2, 1, none⟩ true 7).successfulTransactions +
        (UsageStats.incrementUsage ⟨3, 2, 1, none⟩ true 7).failedTransactions := by
  have h := C10_incrementUsage_counters ⟨3, 2, 1, none⟩ true 7
  exact ⟨h.1, (h.2.1 rfl).1, h.2.2.2 rfl⟩

/-- C5: every MTN token acquisition carries a Basic Authorization header
over base64(xReferenceId:apiKey) and the Airtel token acquisition is a
client-credentials JSON body carrying the client id and secret. -/
theorem C5_token_acquisition_formats (x k ck dk sk cid csec : String) :
    (MTNAuthService.createCollectionTokenHeaders x k ck).lookup "Authorization" =
      some ("Basic " ++ base64Encode (strBytes (x ++ ":" ++ k))) ∧
    (MTNAuthService.createDisbursementTokenHeaders x k dk).lookup "Authorization" =
      some ("Basic " ++ base64Encode (strBytes (x ++ ":" ++ k))) ∧
    (MTNCollectionService.getTokenHeaders x k sk).lookup "Authorization" =
      some ("Basic " ++ base64Encode (strBytes (x ++ ":" ++ k))) ∧
    AirtelAuthService.tokenRequestBody cid csec =
      { client_id := cid, client_secret := csec, grant_type := "client_credentials" } := by
  refine ⟨?_, ?_, ?_, rfl⟩ <;>
    simp [MTNAuthService.createCollectionTokenHeaders,
          MTNAuthService.createDisbursementTokenHeaders,
          MTNCollectionService.getTokenHeaders, List.lookup]

/-- C6: the freshly generated UUID is sent verbatim as the X-Reference-Id
header of the request-to-pay call and, when the provider accepts with 202,
is returned to the caller as the referenceId of the transaction. -/
theorem C6_reference_id_roundtrip (uuid userId phone : String) (amount : Nat)
    (token env cb sk : String) (httpStatus : Nat) :
    (MTNPaymentService.requestPayment uuid userId phone amount token env cb sk
        httpStatus).requestHeaders.lookup "X-Reference-Id" = some uuid ∧
    (httpStatus = 202 →
      (MTNPaymentService.requestPayment uuid userId phone amount token env cb sk
          httpStatus).result =
        Except.ok { referenceId := uuid, status := 202, userId := userId,
                    phoneNumber := phone, amount := amount, currency := "RWF" }) := by
  constructor
  · simp [MTNPaymentService.requestPayment,
          MTNCollectionService.requestToPayHeaders, List.lookup]
  · intro h
    subst h
    simp [MTNPaymentService.requestPayment, MTNCollectionService.requestToPayOutcome]

/-- C6 witness: the flow evaluated at a concrete accepted request. -/
theorem C6_witness :
    (MTNPaymentService.requestPayment "u-1" "user" "0788" 100 "tok" "mtnrwanda" "cb"
        "sub" 202).result =
      Except.ok { referenceId := "u-1", status := 202, userId := "user",
                  phoneNumber := "0788", amount := 100, currency := "RWF" } :=
  (C6_reference_id_roundtrip "u-1" "user" "0788" 100 "tok" "mtnrwanda" "cb" "sub" 202).2
    rfl

/-- C8: a callback carrying every required field is always answered 200,
also when persisting or processing throws; a callback missing the body or a
required field is answered 400. -/
theorem C8_callback_http_statuses (storeM : List Payment) (storeA : List Subscription)
    (cb : MTNCallbackBody) (b : AirtelCallbackBody) (tr : AirtelCallbackTransaction)
    (now : Nat) (pf : Bool) :
    (jsTruthyStr cb.externalId = true → jsTruthyStr cb.status = true →
     jsTruthyStr cb.amount = true → jsTruthyStr cb.currency = true →
      (MTNPaymentController.callback storeM (some cb) now pf).1 = 200) ∧
    ((jsTruthyStr cb.externalId = false ∨ jsTruthyStr cb.status = false ∨
      jsTruthyStr cb.amount = false ∨ jsTruthyStr cb.currency = false) →
      (MTNPaymentController.callback storeM (some cb) now pf).1 = 400) ∧
    ((MTNPaymentController.callback storeM none now pf).1 = 400) ∧
    (b.transaction = some tr → jsTruthyStr tr.id = true →
     jsTruthyStr tr.status_code = true → jsTruthyStr tr.airtel_money_id = true →
      (AirtelPaymentController.callback storeA (some b) pf).1 = 200) ∧
    (b.transaction = none →
      (AirtelPaymentController.callback storeA (some b) pf).1 = 400) ∧
    (b.transaction = some tr →
      (jsTruthyStr tr.id = false ∨ jsTruthyStr tr.status_code = false ∨
       jsTruthyStr tr.airtel_money_id = false) →
      (AirtelPaymentController.callback storeA (some b) pf).1 = 400) ∧
    ((AirtelPaymentController.callback storeA none pf).1 = 400) := by
  refine ⟨?_, ?_, ?_, ?_, ?_, ?_, ?_⟩
  · intro h1 h2 h3 h4
    cases pf <;> simp [MTNPaymentController.callback, h1, h2, h3, h4]
  · intro h
    rcases h with h | h | h | h <;> simp [MTNPaymentController.callback, h]
  · rfl
  · intro ht h1 h2 h3
    cases pf <;> simp [AirtelPaymentController.callback, ht, h1, h2, h3]
  · intro ht
    simp [AirtelPaymentController.callback, ht]
  · intro ht h
    rcases h with h | h | h <;> simp [AirtelPaymentController.callback, ht, h]
  · rfl

/-- C8 witness: the four response codes evaluated at concrete callbacks. -/
theorem C8_witness :
    (MTNPaymentController.callback [samplePayment] (some sampleMTNCallback) 99 true).1
      = 200 ∧
    (AirtelPaymentController.callback [sampleAirtelSub] (some sampleAirtelCallback)
      false).1 = 200 ∧
    (MTNPaymentController.callback [samplePayment]
      (some { sampleMTNCallback with status := none }) 99 false).1 = 400 := by
  have h := C8_callback_http_statuses [samplePayment] [sampleAirtelSub]
    sampleMTNCallback sampleAirtelCallback
    { id := some "SUB-1", status_code := some "TS", airtel_money_id := some "AM-1",
      message := none } 99 true
  have h2 := C8_callback_http_statuses [samplePayment] [sampleAirtelSub]
    { sampleMTNCallback with status := none } sampleAirtelCallback
    { id := some "SUB-1", status_code := some "TS", airtel_money_id := some "AM-1",
      message := none } 99 false
  refine ⟨h.1 rfl rfl rfl rfl, ?_, h2.2.1 (Or.inr (Or.inl rfl))⟩
  have h3 := C8_callback_http_statuses [samplePayment] [sampleAirtelSub]
    sampleMTNCallback sampleAirtelCallback
    { id := some "SUB-1", status_code := some "TS", airtel_money_id := some "AM-1",
      message := none } 99 false
  exact h3.2.2.2.1 rfl rfl rfl rfl

/-- C1: each getValidToken path returns the cached token unchanged while the
stored expiry minus the fixed buffer (30 seconds on the MTN
collection-service path, 5 minutes on the MTN and Airtel auth-service
paths) is still strictly in the future, and otherwise stores the freshly
fetched token with expiry now plus the provider-declared expires_in seconds
and returns that token. -/
theorem C1_get_valid_token_cache_policy (u : MTNUser) (a : AirtelUser) (now : Nat)
    (resp : TokenResponse) (e : Nat) (he : resp.expires_in = some e) (hpos : 0 < e) :
    (∀ tok exp, u.collectionToken = some tok → tok ≠ "" →
      u.collectionTokenExpiresAt = some exp → exp - 30000 > now →
      MTNCollectionService.getValidToken u now resp = (tok, u)) ∧
    (MTNCollectionService.cachedCollectionTokenUsable u now = false →
      MTNCollectionService.getValidToken u now resp =
        (resp.access_token, u.updateCollectionToken resp.access_token e now) ∧
      (MTNCollectionService.getValidToken u now resp).2.collectionTokenExpiresAt =
        some (now + e * 1000)) ∧
    (∀ tok exp, u.collectionToken = some tok → tok ≠ "" →
      u.collectionTokenExpiresAt = some exp → exp - 300000 > now →
      MTNAuthService.refreshCollectionIfNeeded u now resp = u) ∧
    (MTNAuthService.collectionNeedsRefresh u now = true →
      MTNAuthService.refreshCollectionIfNeeded u now resp =
        u.updateCollectionToken resp.access_token e now ∧
      (MTNAuthService.refreshCollectionIfNeeded u now resp).collectionToken =
        some resp.access_token ∧
      (MTNAuthService.refreshCollectionIfNeeded u now resp).collectionTokenExpiresAt =
        some (now + e * 1000)) ∧
    (∀ tok exp, a.accessToken = some tok → tok ≠ "" →
      a.tokenExpiresAt = some exp → exp - 300000 > now →
      AirtelAuthService.refreshTokensIfNeeded a now resp = a ∧
      AirtelAuthService.getValidAccessToken a now resp = (some tok, a)) ∧
    (AirtelAuthService.needsRefresh a now = true →
      AirtelAuthService.refreshTokensIfNeeded a now resp =
        a.updateToken resp.access_token resp.expires_in resp.token_type resp.scope now ∧
      (AirtelAuthService.refreshTokensIfNeeded a now resp).accessToken =
        some resp.access_token ∧
      (AirtelAuthService.refreshTokensIfNeeded a now resp).tokenExpiresAt =
        some (now + e * 1000)) ∧
    (∀ tok exp, u.disbursementToken = some tok → tok ≠ "" →
      u.disbursementTokenExpiresAt = some exp → exp - 300000 > now →
      MTNAuthService.refreshDisbursementIfNeeded u now resp = u) ∧
    (MTNAuthService.disbursementNeedsRefresh u now = true →
      MTNAuthService.refreshDisbursementIfNeeded u now resp =
        u.updateDisbursementToken resp.access_token e now ∧
      (MTNAuthService.refreshDisbursementIfNeeded u now resp).disbursementTokenExpiresAt =
        some (now + e * 1000)) := by
  refine ⟨?_, ?_, ?_, ?_, ?_, ?_, ?_, ?_⟩
  · intro tok exp htok hne hexp hfut
    have hc : MTNCollectionService.cachedCollectionTokenUsable u now = true := by
      unfold MTNCollectionService.cachedCollectionTokenUsable
      rw [htok, hexp]
      simp [hne, hfut]
    unfold MTNCollectionService.getValidToken
    rw [hc, htok]
    simp
  · intro hc
    have hne0 : e ≠ 0 := by omega
    unfold MTNCollectionService.getValidToken
    rw [hc]
    simp only [Bool.false_eq_true, if_false]
    refine ⟨by rw [he]; simp [jsOrNat, hne0], ?_⟩
    rw [he]
    simp [jsOrNat, hne0, MTNUser.updateCollectionToken]
  · intro tok exp htok hne hexp hfut
    have hv : u.collectionTokenValid now = true := by
      unfold MTNUser.collectionTokenValid
      rw [htok, hexp]
      simp [hne]
      omega
    have hr : MTNAuthService.collectionNeedsRefresh u now = false := by
      unfold MTNAuthService.collectionNeedsRefresh
      rw [hv, hexp]
      simp
      omega
    unfold MTNAuthService.refreshCollectionIfNeeded
    rw [hr]
    simp
  · intro hr
    unfold MTNAuthService.refreshCollectionIfNeeded
    rw [hr]
    simp [he, MTNUser.updateCollectionToken]
  · intro tok exp htok hne hexp hfut
    have hv : a.tokenValid now = true := by
      unfold AirtelUser.tokenValid
      rw [htok, hexp]
      simp [hne]
      omega
    have hr : AirtelAuthService.needsRefresh a now = false := by
      unfold AirtelAuthService.needsRefresh
      rw [hv, hexp]
      simp
      omega
    constructor
    · unfold AirtelAuthService.refreshTokensIfNeeded
      rw [hr]
      simp
    · unfold AirtelAuthService.getValidAccessToken AirtelAuthService.refreshTokensIfNeeded
      rw [hr]
      simp [htok]
  · intro hr
    unfold AirtelAuthService.refreshTokensIfNeeded
    rw [hr]
    simp [he, AirtelUser.updateToken]
  · intro tok exp htok hne hexp hfut
    have hv : u.disbursementTokenValid now = true := by
      unfold MTNUser.disbursementTokenValid
      rw [htok, hexp]
      simp [hne]
      omega
    have hr : MTNAuthService.disbursementNeedsRefresh u now = false := by
      unfold MTNAuthService.disbursementNeedsRefresh
      rw [hv, hexp]
      simp
      omega
    unfold MTNAuthService.refreshDisbursementIfNeeded
    rw [hr]
    simp
  · intro hr
    unfold MTNAuthService.refreshDisbursementIfNeeded
    rw [hr]
    simp [he, MTNUser.updateDisbursementToken]

/-- C1 witness: the cache-hit branch and the refresh branch evaluated at
concrete records. -/
theorem C1_witness :
    MTNCollectionService.getValidToken sampleMTNUser 0 sampleTokenResponse =
      ("ctok", sampleMTNUser) ∧
    AirtelAuthService.refreshTokensIfNeeded { sampleAirtelUser with accessToken := none }
        0 sampleTokenResponse =
      AirtelUser.updateToken { sampleAirtelUser with accessToken := none } "fresh"
        (some 180) (some "access_token") none 0 := by
  have h := C1_get_valid_token_cache_policy sampleMTNUser
    { sampleAirtelUser with accessToken := none } 0 sampleTokenResponse 180 rfl
    (by decide)
  exact ⟨h.1 "ctok" 1000000 rfl (by decide) rfl (by decide),
         (h.2.2.2.2.2.1 (by decide)).1⟩

/-- The Airtel callback handler never writes the transaction store. -/
theorem airtel_callback_preserves_store (storeA : List Subscription)
    (bodyA : Option AirtelCallbackBody) (pf : Bool) :
    (AirtelPaymentController.callback storeA bodyA pf).2 = storeA := by
  unfold AirtelPaymentController.callback
  rcases bodyA with _ | b
  · rfl
  · rcases htr : b.transaction with _ | tr
    · simp [htr]
    · simp only [htr]
      split
      · rfl
      · split <;> rfl

/-- The fields the three persisting MTN callback branches overwrite. -/
theorem applyMTNCallbackToPayment_fields (p : Payment) (cb : MTNCallbackBody)
    (now : Nat) (s : String) (hst : cb.status = some s)
    (hs3 : s = "PENDING" ∨ s = "SUCCESSFUL" ∨ s = "FAILED") :
    (applyMTNCallbackToPayment p cb now).status = s ∧
    (applyMTNCallbackToPayment p cb now).mtnStatus = some s ∧
    (applyMTNCallbackToPayment p cb now).mtnResponse = some cb := by
  unfold applyMTNCallbackToPayment withFinancialTransactionId
  rw [hst]
  rcases hs3 with h | h | h <;> subst h <;> simp <;> split <;> simp

/-- C2 counterexample: a field-valid Airtel callback reporting TS for
transaction SUB-1 is accepted with 200 while the matching local record is
left entirely unchanged, still PENDING — no lookup and no overwrite happen
on the Airtel path. -/
theorem C2_counterexample :
    AirtelPaymentController.callback [sampleAirtelSub] (some sampleAirtelCallback)
        false = (200, [sampleAirtelSub]) ∧
    sampleAirtelSub.transactionId = "SUB-1" ∧
    sampleAirtelSub.status = "PENDING" ∧
    sampleAirtelCallback.transaction =
      some { id := some "SUB-1", status_code := some "TS",
             airtel_money_id := some "AM-1", message := none } := by
  decide

/-- C2 (amended): the MTN callback handler looks up the most recently
created payment matching the callback externalId and, for a callback status
of PENDING, SUCCESSFUL or FAILED, overwrites its status, mtnStatus and
mtnResponse with values derived from the callback, leaving every other
record unchanged; the Airtel callback handler only persists a callback
record and never updates any local transaction record. -/
theorem C2_amended_callback_reconciliation
    (storeM : List Payment) (storeA : List Subscription)
    (bodyA : Option AirtelCallbackBody) (cb : MTNCallbackBody) (now : Nat) (pf : Bool)
    (i : Nat) (p : Payment) (s : String)
    (hx : jsTruthyStr cb.externalId = true) (hsT : jsTruthyStr cb.status = true)
    (ha : jsTruthyStr cb.amount = true) (hc : jsTruthyStr cb.currency = true)
    (hst : cb.status = some s)
    (hs3 : s = "PENDING" ∨ s = "SUCCESSFUL" ∨ s = "FAILED")
    (hi : mostRecentIdxByExternalId storeM (cb.externalId.getD "") = some i)
    (hp : storeM[i]? = some p) :
    (AirtelPaymentController.callback storeA bodyA pf).2 = storeA ∧
    ((MTNPaymentController.callback storeM (some cb) now false).2)[i]? =
      some (applyMTNCallbackToPayment p cb now) ∧
    (∀ j, j ≠ i →
      ((MTNPaymentController.callback storeM (some cb) now false).2)[j]? =
        storeM[j]?) ∧
    (applyMTNCallbackToPayment p cb now).status = s ∧
    (applyMTNCallbackToPayment p cb now).mtnStatus = some s ∧
    (applyMTNCallbackToPayment p cb now).mtnResponse = some cb := by
  have hstore : (MTNPaymentController.callback storeM (some cb) now false).2 =
      storeM.set i (applyMTNCallbackToPayment p cb now) := by
    unfold MTNPaymentController.callback MTNPaymentController.applyCallback
    simp [hx, hsT, ha, hc, hi, hp]
  have hlen : i < storeM.length := by
    rcases List.getElem?_eq_some.mp hp with ⟨h, _⟩
    exact h
  refine ⟨airtel_callback_preserves_store storeA bodyA pf, ?_, ?_, ?_⟩
  · rw [hstore]
    exact List.getElem?_set_self hlen
  · intro j hj
    rw [hstore]
    exact List.getElem?_set_ne (fun h => hj h.symm)
  · exact applyMTNCallbackToPayment_fields p cb now s hst hs3

/-- C2 witness: the amended behaviour evaluated at a concrete store and a
concrete SUCCESSFUL callback. -/
theorem C2_witness :
    ((MTNPaymentController.callback [samplePayment] (some sampleMTNCallback) 99
        false).2)[0]? =
      some (applyMTNCallbackToPayment samplePayment sampleMTNCallback 99) ∧
    (applyMTNCallbackToPayment samplePayment sampleMTNCallback 99).status =
      "SUCCESSFUL" ∧
    (AirtelPaymentController.callback [sampleAirtelSub] (some sampleAirtelCallback)
        false).2 = [sampleAirtelSub] := by
  have h := C2_amended_callback_reconciliation [samplePayment] [sampleAirtelSub]
    (some sampleAirtelCallback) sampleMTNCallback 99 false 0 samplePayment
    "SUCCESSFUL" rfl rfl rfl rfl rfl (Or.inr (Or.inl rfl)) (by decide) (by decide)
  exact ⟨h.2.1, h.2.2.2.1, h.1⟩

/-- Any status an Airtel-response branch writes stays in the enum. -/
theorem applyAirtelOutcome_status_mem (sub : Subscription) (resp : AirtelPayResponse)
    (now : Nat) (h : sub.status ∈ statusEnum) :
    (applyAirtelOutcome sub resp now).status ∈ statusEnum := by
  unfold applyAirtelOutcome
  split
  · exact h
  · split
    · exact h
    · split
      · simp [statusEnum]
      · split <;> simp [statusEnum]

/-- Any status an MTN-response branch writes stays in the enum. -/
theorem applyMtnOutcome_status_mem (sub : Subscription) (resp : MTNPayResponse)
    (now : Nat) (h : sub.status ∈ statusEnum) :
    (applyMtnOutcome sub resp now).status ∈ statusEnum := by
  unfold applyMtnOutcome
  split
  · exact h
  · split
    · exact h
    · split
      · simp [statusEnum]
      · split <;> simp [statusEnum]

/-- C3: every operation that writes the main status of a payment or
subscription record writes a member of the four-value enum
PENDING / SUCCESSFUL / FAILED / CANCELLED, chosen from the provider
response, so enum membership is an invariant of every record these
operations produce. -/
theorem C3_status_enum_invariant (p : Payment) (cb : MTNCallbackBody) (now : Nat)
    (d : SubscriptionData) (uuid : String)
    (ac : Except String AirtelPayResponse) (mc : Except String MTNPayResponse)
    (hp : p.status ∈ statusEnum) :
    (applyMTNCallbackToPayment p cb now).status ∈ statusEnum ∧
    (∀ sub, (SubscriptionService.createSubscriptionPayment d uuid now ac mc).saved =
        some sub → sub.status ∈ statusEnum) ∧
    (∀ sub, (SubscriptionService.createSubscriptionPayment d uuid now ac mc).response =
        Except.ok sub → sub.status ∈ statusEnum) := by
  refine ⟨?_, ?_, ?_⟩
  · unfold applyMTNCallbackToPayment withFinancialTransactionId
    split
    · split
      · split <;> simp [statusEnum]
      · split
        · split <;> simp [statusEnum]
        · split
          · split <;> simp [statusEnum]
          · exact hp
    · exact hp
  · intro sub hsub
    unfold SubscriptionService.createSubscriptionPayment at hsub
    rcases hv : SubscriptionService.validateSubscriptionData d with _ | msg
    · rw [hv] at hsub
      simp only at hsub
      split at hsub
      · cases ac with
        | ok resp =>
          simp only [Option.some.injEq] at hsub
          subst hsub
          exact applyAirtelOutcome_status_mem _ _ _ (by simp [statusEnum])
        | error e =>
          simp only [Option.some.injEq] at hsub
          subst hsub
          simp [statusEnum]
      · cases mc with
        | ok resp =>
          simp only [Option.some.injEq] at hsub
          subst hsub
          exact applyMtnOutcome_status_mem _ _ _ (by simp [statusEnum])
        | error e =>
          simp only [Option.some.injEq] at hsub
          subst hsub
          simp [statusEnum]
    · rw [hv] at hsub
      simp at hsub
  · intro sub hsub
    unfold SubscriptionService.createSubscriptionPayment at hsub
    rcases hv : SubscriptionService.validateSubscriptionData d with _ | msg
    · rw [hv] at hsub
      simp only at hsub
      split at hsub
      · cases ac with
        | ok resp =>
          simp only [Except.ok.injEq] at hsub
          subst hsub
          exact applyAirtelOutcome_status_mem _ _ _ (by simp [statusEnum])
        | error e => simp at hsub
      · cases mc with
        | ok resp =>
          simp only [Except.ok.injEq] at hsub
          subst hsub
          exact applyMtnOutcome_status_mem _ _ _ (by simp [statusEnum])
        | error e => simp at hsub
    · rw [hv] at hsub
      simp at hsub

/-- C3 witness: the invariant evaluated at a concrete record and callback. -/
theorem C3_witness :
    (applyMTNCallbackToPayment samplePayment sampleMTNCallback 99).status ∈
      statusEnum :=
  (C3_status_enum_invariant samplePayment sampleMTNCallback 99 sampleSubData "u"
    (Except.error "x") (Except.error "y") (by decide)).1

/-- The attempt number that leaves the retry loop stays within the budget of
remaining attempts. -/
theorem retryGo_attempt_le {α : Type} (calls : Nat → Except String α) (d : Nat) :
    ∀ remaining attempt lastErr delays, 1 ≤ attempt →
      (MomoAPIFixedToken.retryGo calls d attempt remaining lastErr delays).2.1 + 1 ≤
        attempt + remaining := by
  intro remaining
  induction remaining with
  | zero =>
    intro attempt lastErr delays h1
    unfold MomoAPIFixedToken.retryGo
    simp only
    omega
  | succ r ih =>
    intro attempt lastErr delays h1
    unfold MomoAPIFixedToken.retryGo
    cases hcall : calls attempt with
    | ok a => simp only [hcall]; omega
    | error e =>
      simp only [hcall]
      by_cases hr0 : r = 0
      · rw [if_pos hr0]
        dsimp only
        omega
      · rw [if_neg hr0]
        have h := ih (attempt + 1) (some e) (delays ++ [d]) (by omega)
        omega

/-- When the first success is at attempt k, the loop returns its value at
attempt k after k - attempt constant delays. -/
theorem retryGo_first_success {α : Type} (calls : Nat → Except String α) (d : Nat) :
    ∀ remaining attempt lastErr delays k a,
      attempt ≤ k → k < attempt + remaining →
      (∀ i, attempt ≤ i → i < k → ∃ e, calls i = Except.error e) →
      calls k = Except.ok a →
      MomoAPIFixedToken.retryGo calls d attempt remaining lastErr delays =
        (Except.ok a, k, delays ++ List.replicate (k - attempt) d) := by
  intro remaining
  induction remaining with
  | zero =>
    intro attempt lastErr delays k a h1 h2 _ _
    exfalso
    omega
  | succ r ih =>
    intro attempt lastErr delays k a h1 h2 hfail hk
    unfold MomoAPIFixedToken.retryGo
    by_cases hak : attempt = k
    · subst hak
      simp only [hk]
      simp
    · have hlt : attempt < k := lt_of_le_of_ne h1 hak
      obtain ⟨e, he⟩ := hfail attempt (le_refl attempt) hlt
      simp only [he]
      have hr0 : ¬ r = 0 := by omega
      rw [if_neg hr0]
      rw [ih (attempt + 1) (some e) (delays ++ [d]) k a (by omega) (by omega)
        (fun i hi1 hi2 => hfail i (by omega) hi2) hk]
      have hka : k - attempt = (k - (attempt + 1)) + 1 := by omega
      rw [hka, List.replicate_succ, List.append_assoc]
      rfl

/-- When every attempt fails, the loop throws the error of the final attempt
after maxRetries - 1 constant delays. -/
theorem retryGo_all_fail {α : Type} (calls : Nat → Except String α) (d : Nat)
    (eL : String) :
    ∀ remaining attempt lastErr delays, 1 ≤ remaining →
      (∀ i, attempt ≤ i → i < attempt + remaining → ∃ e, calls i = Except.error e) →
      calls (attempt + remaining - 1) = Except.error eL →
      MomoAPIFixedToken.retryGo calls d attempt remaining lastErr delays =
        (Except.error (some eL), attempt + remaining - 1,
          delays ++ List.replicate (remaining - 1) d) := by
  intro remaining
  induction remaining with
  | zero =>
    intro attempt lastErr delays h
    exfalso
    omega
  | succ r ih =>
    intro attempt lastErr delays _ hfail hlast
    unfold MomoAPIFixedToken.retryGo
    by_cases hr0 : r = 0
    · subst hr0
      have hc : calls attempt = Except.error eL := by
        have harg : attempt + 1 - 1 = attempt := by omega
        rw [harg] at hlast
        exact hlast
      simp only [hc]
      simp
    · obtain ⟨e, he⟩ := hfail attempt (le_refl attempt) (by omega)
      simp only [he]
      rw [if_neg hr0]
      have harg : attempt + 1 + r - 1 = attempt + (r + 1) - 1 := by omega
      rw [ih (attempt + 1) (some e) (delays ++ [d]) (by omega)
        (fun i hi1 hi2 => hfail i (by omega) (by omega))
        (by rw [harg]; exact hlast)]
      rw [harg]
      have h3 : (r + 1 - 1 : Nat) = (r - 1) + 1 := by omega
      rw [h3, List.replicate_succ, List.append_assoc]
      rfl

/-- C7: the retry helper makes at most maxRetries attempts, waits the
constant retryDelay between consecutive failed attempts with no backoff
growth, returns the value of the first successful attempt, throws the error
of the last attempt when every attempt fails, and the configured defaults
are maxRetries 3 and retryDelay 1000 ms for both providers. -/
theorem C7_retry_fixed_count_fixed_delay {α : Type} (calls : Nat → Except String α)
    (m d k : Nat) (a : α) (eL : String) :
    ((MomoAPIFixedToken.retryAPICall calls m d).2.1 ≤ m) ∧
    (1 ≤ k → k ≤ m → (∀ i, 1 ≤ i → i < k → ∃ e, calls i = Except.error e) →
      calls k = Except.ok a →
      MomoAPIFixedToken.retryAPICall calls m d =
        (Except.ok a, k, List.replicate (k - 1) d)) ∧
    (1 ≤ m → (∀ i, 1 ≤ i → i ≤ m → ∃ e, calls i = Except.error e) →
      calls m = Except.error eL →
      MomoAPIFixedToken.retryAPICall calls m d =
        (Except.error (some eL), m, List.replicate (m - 1) d)) ∧
    ((config.mtnRetry none none none).maxRetries = 3 ∧
     (config.mtnRetry none none none).retryDelay = 1000 ∧
     (config.airtelRetry none none none).maxRetries = 3 ∧
     (config.airtelRetry none none none).retryDelay = 1000) := by
  refine ⟨?_, ?_, ?_, rfl, rfl, rfl, rfl⟩
  · have h := retryGo_attempt_le calls d m 1 none [] (le_refl 1)
    unfold MomoAPIFixedToken.retryAPICall
    omega
  · intro h1 h2 hfail hk
    unfold MomoAPIFixedToken.retryAPICall
    rw [retryGo_first_success calls d m 1 none [] k a h1 (by omega) hfail hk]
    simp
  · intro h1 hfail hlast
    unfold MomoAPIFixedToken.retryAPICall
    rw [retryGo_all_fail calls d eL m 1 none [] (by omega)
      (fun i hi1 hi2 => hfail i hi1 (by omega)) (by simpa using hlast)]
    simp

/-- C7 witness: a call list failing twice then succeeding, run with the
default budget of 3 attempts and delay 1000. -/
theorem C7_witness :
    MomoAPIFixedToken.retryAPICall
        (fun i => if i == 3 then Except.ok 42 else Except.error "boom") 3 1000 =
      (Except.ok 42, 3, [1000, 1000]) := by
  have h := (C7_retry_fixed_count_fixed_delay
    (fun i => if i == 3 then Except.ok 42 else Except.error "boom") 3 1000 3 42
    "boom").2.1 (by omega) (le_refl 3)
    (fun i hi1 hi2 => ⟨"boom", by
      have : (i == 3) = false := by
        simp only [beq_eq_false_iff_ne, ne_eq]
        omega
      simp [this]⟩)
    (by simp)
  simpa using h

/-- C9: when the provider payment call throws after the subscription record
was persisted as PENDING, the record is updated to FAILED with completedAt
set and the error message stored in the channel error field, and the
function rethrows an error whose message begins with
Subscription payment failed, never returning normally. -/
theorem C9_subscription_payment_error_path (d : SubscriptionData) (uuid : String)
    (now : Nat) (e : String) (ac : Except String AirtelPayResponse)
    (mc : Except String MTNPayResponse)
    (hv : SubscriptionService.validateSubscriptionData d = none) :
    (jsToUpper d.paymentChannel = "AIRTEL" →
      (SubscriptionService.createSubscriptionPayment d uuid now (Except.error e)
          mc).response = Except.error ("Subscription payment failed: " ++ e) ∧
      ∃ sub, (SubscriptionService.createSubscriptionPayment d uuid now
          (Except.error e) mc).saved = some sub ∧ sub.status = "FAILED" ∧
        sub.completedAt = some now ∧ sub.airtelError = some e ∧
        sub.mtnError = none) ∧
    (jsToUpper d.paymentChannel = "MTN" →
      (SubscriptionService.createSubscriptionPayment d uuid now ac
          (Except.error e)).response =
        Except.error ("Subscription payment failed: " ++ e) ∧
      ∃ sub, (SubscriptionService.createSubscriptionPayment d uuid now ac
          (Except.error e)).saved = some sub ∧ sub.status = "FAILED" ∧
        sub.completedAt = some now ∧ sub.mtnError = some e ∧
        sub.airtelError = none) := by
  constructor
  · intro hch
    unfold SubscriptionService.createSubscriptionPayment
    rw [hv]
    simp only [hch]
    simp only [beq_self_eq_true, if_true]
    exact ⟨trivial, ⟨_, rfl, rfl, rfl, rfl, rfl⟩⟩
  · intro hch
    unfold SubscriptionService.createSubscriptionPayment
    rw [hv]
    simp only [hch]
    have hne : (("MTN" : String) == "AIRTEL") = false := by decide
    simp only [hne, Bool.false_eq_true, if_false]
    exact ⟨trivial, ⟨_, rfl, rfl, rfl, rfl, rfl⟩⟩

/-- C9 witness: the error path evaluated at a concrete valid request. -/
theorem C9_witness :
    (SubscriptionService.createSubscriptionPayment sampleSubData "u-9" 50
        (Except.error "boom") (Except.error "other")).response =
      Except.error "Subscription payment failed: boom" ∧
    ∃ sub, (SubscriptionService.createSubscriptionPayment sampleSubData "u-9" 50
        (Except.error "boom") (Except.error "other")).saved = some sub ∧
      sub.status = "FAILED" ∧ sub.completedAt = some 50 ∧
      sub.airtelError = some "boom" ∧ sub.mtnError = none := by
  have h := (C9_subscription_payment_error_path sampleSubData "u-9" 50 "boom"
    (Except.error "x") (Except.error "other") (by decide)).1 (by decide)
  simpa using h

end Tsinda
